import Mathlib

/-!
Verification development for the private4me research-assistant core:
context assembly from selected papers, provider/session state for the
Gemini chat module, OpenRouter chat history handling, and the App-level
orchestration handlers. Definitions are shallow embeddings of the
TypeScript source (App.tsx, services/gemini.ts, services/openrouter.ts).
-/

namespace Private4me

/-- An author record; only the name is used by the context assembler. -/
structure Author where
  name : String
deriving DecidableEq, Repr

/-- A paper record as fetched from the search service (types.ts is not in
src/; the field set is taken from the fields App.tsx reads: paperId, title,
authors, year, venue, url, abstract, citationCount, with the optional ones
modelled as Option). -/
structure Paper where
  paperId : String
  title : String
  authors : List Author
  year : Option Int
  venue : Option String
  url : Option String
  abstract : Option String
  citationCount : Option Int
deriving DecidableEq, Repr

/-- JS `x ?? 0` on the optional citation count. -/
def citeKey (p : Paper) : Int := p.citationCount.getD 0

/-- JS `x ?? 0` on the optional year. -/
def yearKey (p : Paper) : Int := p.year.getD 0

/-- The total preorder realised by the comparator passed to
`papersToConsider.sort` in `getContextFromSelectedPapers`:
descending citation count, ties broken by descending year. -/
def paperBefore (a b : Paper) : Prop :=
  citeKey b < citeKey a ∨ (citeKey a = citeKey b ∧ yearKey b ≤ yearKey a)

instance : DecidableRel paperBefore := fun a b => by
  unfold paperBefore; infer_instance

instance : IsTotal Paper paperBefore := by
  constructor; intro a b; unfold paperBefore; omega

instance : IsTrans Paper paperBefore := by
  constructor; intro a b c hab hbc; unfold paperBefore at hab hbc ⊢; omega

/-- The JS `Array.prototype.sort` call with the citation/year comparator:
ES2019 sort is stable, and a stable sort under a total preorder has a
unique result, so the stable insertion sort models it exactly. -/
def sortPapers (l : List Paper) : List Paper := l.insertionSort paperBefore

/-- JS falsiness of a string (`s || fallback` picks the fallback iff `s`
is empty), specialised to the `'N/A'` fallback used for venue/url/abstract
and the joined author names. -/
def orNA (s : String) : String := if s = "" then "N/A" else s

/-- `p.venue || 'N/A'` (and likewise url/abstract) where the field is
`string | undefined`. -/
def optStrNA : Option String → String
  | none => "N/A"
  | some s => orNA s

/-- `p.year || 'N/A'`: `undefined` and `0` are both falsy in JS. -/
def yearStr (p : Paper) : String :=
  match p.year with
  | none => "N/A"
  | some y => if y = 0 then "N/A" else toString y

/-- `p.authors?.map(a => a.name).join(', ') || 'N/A'`: an undefined or
empty author list both render as `N/A` (the empty join is falsy). -/
def authorsStr (p : Paper) : String :=
  orNA (String.intercalate (", ") (p.authors.map Author.name))

/-- The fixed-shape block `paperInfo` rendered for one paper, with its
1-based citation number. -/
def paperInfo (counter : Nat) (p : Paper) : String :=
  "[" ++ toString counter ++ "] Title: " ++ p.title ++
  "\nAuthors: " ++ authorsStr p ++
  "\nYear: " ++ yearStr p ++
  "\nVenue: " ++ optStrNA p.venue ++
  "\nURL: " ++ optStrNA p.url ++
  "\nAbstract: " ++ optStrNA p.abstract ++ "\n\n"

/-- Number of maximal whitespace runs in a character list; `prevWs` says
whether the previous character was whitespace. -/
def countRuns (prevWs : Bool) : List Char → Nat
  | [] => 0
  | c :: cs =>
    if c.isWhitespace then (if prevWs then 0 else 1) + countRuns true cs
    else countRuns false cs

/-- `s.split(/\s+/).length` in JS: splitting at each maximal whitespace
run yields one more piece than there are runs (leading/trailing runs
contribute empty pieces, which JS counts). -/
def jsSplitLen (s : String) : Nat := 1 + countRuns false s.data

/-- Drop leading whitespace characters. -/
def dropWs : List Char → List Char
  | [] => []
  | c :: cs => if c.isWhitespace then dropWs cs else c :: cs

/-- JS `String.prototype.trim`: strip leading and trailing whitespace. -/
def jsTrim (s : String) : String :=
  ⟨(dropWs (dropWs s.data).reverse).reverse⟩

/-- Membership-deduplication keeping first occurrences, against an
accumulator of already-seen ids. -/
def dedupFirstAux (seen : List String) : List String → List String
  | [] => []
  | x :: xs => if x ∈ seen then dedupFirstAux seen xs else x :: dedupFirstAux (x :: seen) xs

/-- `new Set(selectedPaperIds)` iterated with `forEach`: JS Sets iterate
in insertion order with duplicates dropped at their first occurrence. -/
def dedupFirst (l : List String) : List String := dedupFirstAux [] l

/-- The `papersToConsider` list of `getContextFromSelectedPapers`
(App.tsx): a non-empty selection is resolved id-by-id against the cache
with misses dropped; an empty selection falls back to the current page's
papers, resolved against the cache the same way. -/
def candidatePapers (selectedPaperIds : List String)
    (cachedPapers : String → Option Paper) (papers : List Paper) : List Paper :=
  if selectedPaperIds.isEmpty then
    papers.filterMap (fun p => cachedPapers p.paperId)
  else
    (dedupFirst selectedPaperIds).filterMap cachedPapers

/-- The string-building loop over the sorted candidates: a block is
appended only while the running word count stays within the budget, and
the loop `break`s at the first block that would exceed it. -/
def buildLoop (budget : Nat) : List Paper → Nat → Nat → String → String
  | [], _, _, ctx => ctx
  | p :: ps, counter, wc, ctx =>
    let info := paperInfo counter p
    let c := jsSplitLen info
    if wc + c ≤ budget then buildLoop budget ps (counter + 1) (wc + c) (ctx ++ info)
    else ctx

/-- The same loop, returning the emitted (citation number, paper) pairs
instead of the concatenated string. -/
def emitLoop (budget : Nat) : List Paper → Nat → Nat → List (Nat × Paper)
  | [], _, _ => []
  | p :: ps, counter, wc =>
    let c := jsSplitLen (paperInfo counter p)
    if wc + c ≤ budget then (counter, p) :: emitLoop budget ps (counter + 1) (wc + c)
    else []

/-- Concatenation of rendered blocks. -/
def concatBlocks : List String → String
  | [] => ""
  | s :: rest => s ++ concatBlocks rest

/-- `getContextFromSelectedPapers` (App.tsx): resolve the candidates,
sort them by the citation/year comparator, append numbered blocks while
within the word budget, and trim the result. The word budget is the
`MAX_CONTEXT_LENGTH_WORDS` constant (constants.ts is not in src/), kept
as a parameter. -/
def getContextFromSelectedPapers (selectedPaperIds : List String)
    (cachedPapers : String → Option Paper) (papers : List Paper)
    (budget : Nat) : String :=
  jsTrim (buildLoop budget (sortPapers (candidatePapers selectedPaperIds cachedPapers papers))
    1 0 "")

/-- A grounding/citation metadata chunk attached by a provider; its
content is opaque to the orchestration logic. -/
structure GroundingChunk where
  info : String
deriving DecidableEq, Repr

/-- A Gemini conversation turn (`Content` of the genai SDK): a role plus
text parts. -/
structure Content where
  role : String
  parts : List String
deriving DecidableEq, Repr

/-- The sender tag of a displayed chat transcript message. -/
inductive Sender
  | user
  | ai
deriving DecidableEq, Repr

/-- A displayed chat transcript message (`ChatMessage` of types.ts, with
`Date` values modelled as naturals). -/
structure ChatMessage where
  id : String
  sender : Sender
  text : String
  timestamp : Nat
deriving DecidableEq, Repr

/-- An OpenRouter chat-completions role. -/
inductive ORRole
  | system
  | user
  | assistant
deriving DecidableEq, Repr

/-- An OpenRouter chat message. -/
structure OpenRouterMessage where
  role : ORRole
  content : String
deriving DecidableEq, Repr

/-- The two LLM providers of the app. -/
inductive ApiProvider
  | gemini
  | openRouter
deriving DecidableEq, Repr

/-- The display name of a provider, as interpolated into the validation
messages (the enum string values live in types.ts, outside src/). -/
def providerName : ApiProvider → String
  | .gemini => "Gemini"
  | .openRouter => "OpenRouter"

/-- The two generated-section slots. -/
inductive SectionType
  | introduction
  | relatedWorks
deriving DecidableEq, Repr

/-- The module-level mutable state of services/gemini.ts that backs the
chat session: the cached `Chat` instance and the config it was created
under. A handle carries a numeric id modelling JS object identity
(`nextId` is the allocator), the model, the history it was seeded with,
and the system instruction. -/
structure ChatSessionHandle where
  id : Nat
  model : String
  seededHistory : List Content
  sysInstruction : Option String
deriving DecidableEq, Repr

/-- The four module-level variables `geminiChatInstance`, `chatApiKey`,
`chatSystemInstruction`, `chatModelUsed` of services/gemini.ts, plus the
handle-identity allocator. -/
structure GeminiModuleState where
  geminiChatInstance : Option ChatSessionHandle
  chatApiKey : Option String
  chatSystemInstruction : Option String
  chatModelUsed : Option String
  nextId : Nat
deriving DecidableEq, Repr

/-- The initial module state: all four variables are null. -/
def initialGeminiState : GeminiModuleState := ⟨none, none, none, none, 0⟩

/-- `resetGeminiChat` (services/gemini.ts): unconditionally null out the
instance and every stored config field. -/
def resetGeminiChat (s : GeminiModuleState) : GeminiModuleState :=
  { s with geminiChatInstance := none, chatApiKey := none,
           chatSystemInstruction := none, chatModelUsed := none }

/-- The create branch of `startOrContinueChatWithGemini`: build a fresh
`Chat` seeded with the caller's history and record the config it was
created under. -/
def createFresh (s : GeminiModuleState) (apiKey : String) (history : List Content)
    (model : String) (si : Option String) : ChatSessionHandle × GeminiModuleState :=
  let handle : ChatSessionHandle := ⟨s.nextId, model, history, si⟩
  (handle,
   { geminiChatInstance := some handle, chatApiKey := some apiKey,
     chatSystemInstruction := si, chatModelUsed := some model,
     nextId := s.nextId + 1 })

/-- The session lookup at the top of `startOrContinueChatWithGemini`
(services/gemini.ts lines 80-89): reuse the cached instance only when it
exists and the stored apiKey, systemInstruction and model all equal the
requested ones; otherwise create a fresh instance. JS `!==`
distinguishes a stored `null` system instruction from an `undefined`
argument, but a stored `null` only ever coexists with a `null` instance
(reset and the auth-failure path null the instance whenever they null
config fields), in which case creation happens regardless of the config
comparison, so modelling both as `none` is behaviour-preserving. -/
def getOrCreate (s : GeminiModuleState) (apiKey : String) (history : List Content)
    (model : String) (si : Option String) : ChatSessionHandle × GeminiModuleState :=
  match s.geminiChatInstance with
  | some inst =>
    if s.chatApiKey = some apiKey ∧ s.chatSystemInstruction = si ∧
        s.chatModelUsed = some model then
      (inst, s)
    else createFresh s apiKey history model si
  | none => createFresh s apiKey history model si

/-- Whether `pat` occurs at the head of `text`. -/
def beginsWith : List Char → List Char → Bool
  | [], _ => true
  | _ :: _, [] => false
  | p :: ps, c :: cs => p = c && beginsWith ps cs

/-- Substring containment on character lists. -/
def containsSub (pat : List Char) : List Char → Bool
  | [] => beginsWith pat []
  | c :: cs => beginsWith pat (c :: cs) || containsSub pat cs

/-- `error.message.includes("API key not valid")`: the authentication
failure test of the catch block in `startOrContinueChatWithGemini`. -/
def includesAuth (msg : String) : Bool :=
  containsSub ("API key not valid").data msg.data

/-- The catch-block invalidation on an authentication failure
(services/gemini.ts lines 115-121): the instance, stored key and stored
model are nulled out, but `chatSystemInstruction` is left as is. -/
def geminiAuthFailureInvalidate (s : GeminiModuleState) : GeminiModuleState :=
  { s with geminiChatInstance := none, chatApiKey := none, chatModelUsed := none }

/-- The user-role turn appended for a sent message. -/
def userContent (t : String) : Content := ⟨"user", [t]⟩

/-- The model-role turn appended for a received reply. -/
def modelContent (t : String) : Content := ⟨"model", [t]⟩

/-- Result of one Gemini chat turn: the surfaced result or thrown error,
the `updatedHistory` handed back to the caller, and the module state
after the call. -/
structure GeminiChatResult where
  result : Except String String
  updatedHistory : List Content
  state : GeminiModuleState
deriving Repr

/-- `startOrContinueChatWithGemini` (services/gemini.ts): look up or
create the session, then send the message. The remote call's outcome is
the `remote` parameter. On success the updated history is the prior
history with the user turn and the model turn appended; on failure the
error is wrapped, and an authentication failure additionally invalidates
the module state before the error is surfaced. -/
def startOrContinueChatWithGemini (s : GeminiModuleState) (apiKey userMessage : String)
    (history : List Content) (model : String) (si : Option String)
    (remote : Except String String) : GeminiChatResult :=
  let hs := getOrCreate s apiKey history model si
  match remote with
  | .ok text =>
    ⟨.ok text, history ++ [userContent userMessage, modelContent text], hs.2⟩
  | .error msg =>
    let s2 := if includesAuth msg then geminiAuthFailureInvalidate hs.2 else hs.2
    ⟨.error ("Gemini Chat API error: " ++ (if msg = "" then "Unknown error" else msg)),
     history, s2⟩

/-- Whether an OpenRouter message has the system role. -/
def isSystemRole (m : OpenRouterMessage) : Bool :=
  match m.role with
  | .system => true
  | _ => false

/-- The history transformation of `chatWithOpenRouter`
(services/openrouter.ts lines 84-110): a truthy system instruction is
prepended when the prior history holds no system-role message, then the
prior history, the user turn, and finally the assistant turn. -/
def chatWithOpenRouterHistory (si : Option String)
    (currentHistory : List OpenRouterMessage)
    (userMessage aiResponseText : String) : List OpenRouterMessage :=
  let sysPart : List OpenRouterMessage :=
    match si with
    | some s =>
      if s ≠ "" ∧ currentHistory.find? isSystemRole = none then [⟨.system, s⟩] else []
    | none => []
  (sysPart ++ currentHistory ++ [⟨.user, userMessage⟩]) ++ [⟨.assistant, aiResponseText⟩]

/-- `chatWithOpenRouter` with the remote outcome as a parameter: on
success it returns the reply text together with the final history; a
remote failure is wrapped as in `generateTextWithOpenRouter`. -/
def chatWithOpenRouter (userMessage : String)
    (currentHistory : List OpenRouterMessage) (si : Option String)
    (remote : Except String String) : Except String (String × List OpenRouterMessage) :=
  match remote with
  | .ok text => .ok (text, chatWithOpenRouterHistory si currentHistory userMessage text)
  | .error msg =>
    .error ("OpenRouter API error: " ++ (if msg = "" then "Unknown error" else msg))

/-- The slice of App.tsx component state the verified handlers read and
write (search results, cache, selection, keys, models, generated-section
slots, and chat state). The paper cache is modelled as a lookup
function, matching how the `Map` is only ever read via `get`. -/
structure AppState where
  researchTopic : String
  papers : List Paper
  selectedPaperIds : List String
  cachedPapers : String → Option Paper
  geminiKey : String
  openRouterKey : String
  semanticScholarKey : String
  generationProvider : ApiProvider
  selectedGeminiModel : String
  selectedOpenRouterModel : String
  introContent : String
  relatedWorksContent : String
  introGrounding : Option (List GroundingChunk)
  relatedWorksGrounding : Option (List GroundingChunk)
  introError : Option String
  relatedWorksError : Option String
  generationLoading : Bool
  chatMessages : List ChatMessage
  chatError : Option String
  chatLoading : Bool
  geminiChatHistory : List Content
  openRouterChatHistory : List OpenRouterMessage
  currentPage : Nat
  totalPapers : Nat
  searchError : Option String
  searchLoading : Bool

/-- The API key the generation path uses for the configured provider. -/
def generationKey (st : AppState) : String :=
  match st.generationProvider with
  | .gemini => st.geminiKey
  | .openRouter => st.openRouterKey

/-- The model the generation path uses for the configured provider. -/
def generationModel (st : AppState) : String :=
  match st.generationProvider with
  | .gemini => st.selectedGeminiModel
  | .openRouter => st.selectedOpenRouterModel

/-- The context string the App builds from its current state. -/
def appContext (st : AppState) (budget : Nat) : String :=
  getContextFromSelectedPapers st.selectedPaperIds st.cachedPapers st.papers budget

/-- Outcome of one `handleGenerateSection` invocation: the new App
state, the alert messages shown, and how many remote generation calls
were issued. -/
structure GenOutcome where
  state : AppState
  alerts : List String
  remoteCalls : Nat

/-- `handleGenerateSection` (App.tsx): the four ordered validation
checks (topic, context, key, model), each alerting its own message and
aborting with no remote call; past them, the target slot's error,
content and grounding are cleared, one remote call is made, and its
text (on success) or its error message (on failure) is stored into that
slot. The remote outcome is the `remote` parameter; grounding data is
never populated by this handler (the `groundingData` local stays
undefined). -/
def handleGenerateSection (st : AppState) (sectionType : SectionType) (budget : Nat)
    (remote : Except String String) : GenOutcome :=
  if st.researchTopic = "" then
    ⟨st, ["Please search for a topic first."], 0⟩
  else if appContext st budget = "" then
    ⟨st, ["No papers available to provide context."], 0⟩
  else if generationKey st = "" then
    ⟨st, ["API key for " ++ providerName st.generationProvider ++ " is not set."], 0⟩
  else if generationModel st = "" then
    ⟨st, ["Model for " ++ providerName st.generationProvider ++ " is not selected."], 0⟩
  else
    let st1 := { st with generationLoading := true }
    let st2 :=
      match sectionType with
      | .introduction =>
        { st1 with introError := none, introContent := "", introGrounding := none }
      | .relatedWorks =>
        { st1 with relatedWorksError := none, relatedWorksContent := "",
                   relatedWorksGrounding := none }
    match remote with
    | .ok text =>
      let st3 :=
        match sectionType with
        | .introduction => { st2 with introContent := text, introGrounding := none }
        | .relatedWorks => { st2 with relatedWorksContent := text, relatedWorksGrounding := none }
      ⟨{ st3 with generationLoading := false }, [], 1⟩
    | .error msg =>
      let st3 :=
        match sectionType with
        | .introduction => { st2 with introError := some msg }
        | .relatedWorks => { st2 with relatedWorksError := some msg }
      ⟨{ st3 with generationLoading := false }, [], 1⟩

/-- A paper-search response. -/
structure SearchResponse where
  papers : List Paper
  total : Nat
deriving Repr

/-- `response.papers.forEach(p => newCache.set(p.paperId, p))`: merge the
fetched papers into the cache, later entries replacing earlier ones. -/
def recordFetch (cache : String → Option Paper) (ps : List Paper) :
    String → Option Paper :=
  ps.foldl (fun c p => fun id => if id = p.paperId then some p else c id) cache

/-- `fetchPapersForPage` (App.tsx): requires the Semantic Scholar key; on
a successful search it stores the page's papers, the total, the page
number, and merges the page into the cache; on failure it records the
error and empties the displayed page. -/
def fetchPapersForPage (st : AppState) (page : Nat)
    (outcome : Except String SearchResponse) : AppState :=
  if st.semanticScholarKey = "" then
    { st with searchError := some ("Semantic Scholar API key is not set."),
              papers := [], totalPapers := 0 }
  else
    match outcome with
    | .ok resp =>
      { st with papers := resp.papers, totalPapers := resp.total, currentPage := page,
                cachedPapers := recordFetch st.cachedPapers resp.papers,
                searchLoading := false, searchError := none }
    | .error msg =>
      { st with searchError := some msg, papers := [], totalPapers := 0,
                searchLoading := false }

/-- `handleSearch` (App.tsx): store the topic, clear the selection, both
generated-section contents and groundings, and the paper cache, then
fetch page 1 of the new topic. -/
def handleSearch (st : AppState) (topic : String)
    (outcome : Except String SearchResponse) : AppState :=
  let st1 := { st with researchTopic := topic, selectedPaperIds := [],
                       introContent := "", relatedWorksContent := "",
                       introGrounding := none, relatedWorksGrounding := none,
                       cachedPapers := fun _ => none }
  fetchPapersForPage st1 1 outcome

/-- The App-level Gemini model change handler
(`handleSelectedGeminiModelChange`): store the new model, reset the
module chat instance, and clear the persisted Gemini history. -/
def handleSelectedGeminiModelChange (st : AppState) (gs : GeminiModuleState)
    (model : String) : AppState × GeminiModuleState :=
  ({ st with selectedGeminiModel := model, geminiChatHistory := [] }, resetGeminiChat gs)

/-- The chat system instruction literal of `handleSendMessage`. -/
def chatSystemInstructionText : String :=
  "You are a helpful AI assistant specialized in research-related queries. Be concise and informative."

/-- The API key the chat path uses for the chosen provider. -/
def chatKey (st : AppState) (provider : ApiProvider) : String :=
  match provider with
  | .gemini => st.geminiKey
  | .openRouter => st.openRouterKey

/-- Outcome of one `handleSendMessage` invocation: the new App state,
the Gemini module state, and how many remote chat calls were issued. -/
structure SendOutcome where
  state : AppState
  gemini : GeminiModuleState
  remoteCalls : Nat

/-- `handleSendMessage` (App.tsx): the user message is appended to the
transcript first; a missing key or model then aborts with a synchronous
error (stored in `chatError` and echoed into the transcript) and no
remote call; otherwise one remote chat turn runs through the chosen
provider, updating that provider's persisted history on success, or
recording the thrown message on failure. -/
def handleSendMessage (st : AppState) (gs : GeminiModuleState) (messageText : String)
    (provider : ApiProvider) (model : String) (now : Nat)
    (remote : Except String String) : SendOutcome :=
  let userMessage : ChatMessage := ⟨toString now, .user, messageText, now⟩
  let stU := { st with chatMessages := st.chatMessages ++ [userMessage],
                       chatLoading := true, chatError := none }
  if chatKey st provider = "" ∨ model = "" then
    let errorMsg :=
      if chatKey st provider = "" then
        "API key for " ++ providerName provider ++ " is not set."
      else "Model for " ++ providerName provider ++ " is not selected."
    let errorAiMsg : ChatMessage := ⟨toString (now + 1), .ai, "Error: " ++ errorMsg, now⟩
    ⟨{ stU with chatError := some errorMsg, chatLoading := false,
                chatMessages := stU.chatMessages ++ [errorAiMsg] }, gs, 0⟩
  else
    match provider with
    | .gemini =>
      let r := startOrContinueChatWithGemini gs (chatKey st provider) messageText
        st.geminiChatHistory model (some chatSystemInstructionText) remote
      match r.result with
      | .ok text =>
        let aiMessage : ChatMessage := ⟨toString (now + 1), .ai, text, now⟩
        ⟨{ stU with geminiChatHistory := r.updatedHistory,
                    chatMessages := stU.chatMessages ++ [aiMessage],
                    chatLoading := false }, r.state, 1⟩
      | .error emsg =>
        let aiErrorMessage : ChatMessage := ⟨toString (now + 1), .ai, "Error: " ++ emsg, now⟩
        ⟨{ stU with chatError := some emsg,
                    chatMessages := stU.chatMessages ++ [aiErrorMessage],
                    chatLoading := false }, r.state, 1⟩
    | .openRouter =>
      match chatWithOpenRouter messageText st.openRouterChatHistory
          (some chatSystemInstructionText) remote with
      | .ok (text, newHist) =>
        let aiMessage : ChatMessage := ⟨toString (now + 1), .ai, text, now⟩
        ⟨{ stU with openRouterChatHistory := newHist,
                    chatMessages := stU.chatMessages ++ [aiMessage],
                    chatLoading := false }, gs, 1⟩
      | .error emsg =>
        let aiErrorMessage : ChatMessage := ⟨toString (now + 1), .ai, "Error: " ++ emsg, now⟩
        ⟨{ stU with chatError := some emsg,
                    chatMessages := stU.chatMessages ++ [aiErrorMessage],
                    chatLoading := false }, gs, 1⟩

/-- Total whitespace-delimited token count of a list of blocks, counted
exactly as the source counts each block (`split(/\s+/).length`). -/
def sumTokens (blocks : List String) : Nat := (blocks.map jsSplitLen).sum

/-- The full block list of a candidate list under sequential 1-based
numbering starting at `c`. -/
def blocksFrom : Nat → List Paper → List String
  | _, [] => []
  | c, p :: ps => paperInfo c p :: blocksFrom (c + 1) ps

/-- The content field of a section slot. -/
def slotContent : SectionType → AppState → String
  | .introduction, st => st.introContent
  | .relatedWorks, st => st.relatedWorksContent

/-- The error field of a section slot. -/
def slotError : SectionType → AppState → Option String
  | .introduction, st => st.introError
  | .relatedWorks, st => st.relatedWorksError

/-- The grounding field of a section slot. -/
def slotGrounding : SectionType → AppState → Option (List GroundingChunk)
  | .introduction, st => st.introGrounding
  | .relatedWorks, st => st.relatedWorksGrounding

/-- The section slot not targeted by a generation attempt. -/
def otherSection : SectionType → SectionType
  | .introduction => .relatedWorks
  | .relatedWorks => .introduction

/-- Well-formedness of the module state: a stored instance was allocated
before the current allocator value (true of every state reachable from
the initial one). -/
def wfGemini (s : GeminiModuleState) : Prop :=
  ∀ j, s.geminiChatInstance = some j → j.id < s.nextId

/-- An operation against the Gemini chat module. -/
inductive GeminiOp
  | lookup (apiKey : String) (history : List Content) (model : String) (si : Option String)
  | resetOp
  | authFailOp

/-- One module operation: the successor state and the handles it hands
out. -/
def applyGeminiOp (s : GeminiModuleState) : GeminiOp → GeminiModuleState × List ChatSessionHandle
  | .lookup k h m si => ((getOrCreate s k h m si).2, [(getOrCreate s k h m si).1])
  | .resetOp => (resetGeminiChat s, [])
  | .authFailOp => (geminiAuthFailureInvalidate s, [])

/-- All handles handed out along a sequence of module operations. -/
def runGeminiOps (s : GeminiModuleState) : List GeminiOp → List ChatSessionHandle
  | [] => []
  | op :: ops => (applyGeminiOp s op).2 ++ runGeminiOps (applyGeminiOp s op).1 ops

/-- A fixture paper returned by the fixture search response. -/
def freshPaper : Paper := ⟨"n1", "New", [], none, none, none, none, none⟩

/-- A fixture one-paper search response. -/
def freshResp : SearchResponse := ⟨[freshPaper], 1⟩

/-- A fixture app state carrying a stale cache, selection and generated
sections from a previous topic. -/
def staleState : AppState :=
  { researchTopic := "old", papers := [], selectedPaperIds := ["stale"],
    cachedPapers := fun id => if id = "stale" then
      some ⟨"stale", "Old", [], none, none, none, none, none⟩ else none,
    geminiKey := "", openRouterKey := "", semanticScholarKey := "sk",
    generationProvider := .gemini, selectedGeminiModel := "",
    selectedOpenRouterModel := "", introContent := "old intro",
    relatedWorksContent := "old rw", introGrounding := none,
    relatedWorksGrounding := none, introError := none, relatedWorksError := none,
    generationLoading := false, chatMessages := [], chatError := none,
    chatLoading := false, geminiChatHistory := [], openRouterChatHistory := [],
    currentPage := 3, totalPapers := 9, searchError := none, searchLoading := false }

theorem jsSplitLen_pos (s : String) : 1 ≤ jsSplitLen s := by
  unfold jsSplitLen; omega

theorem buildLoop_eq_concat (budget : Nat) :
    ∀ (l : List Paper) (counter wc : Nat) (ctx : String),
    buildLoop budget l counter wc ctx =
      ctx ++ concatBlocks ((emitLoop budget l counter wc).map fun x => paperInfo x.1 x.2) := by
  intro l
  induction l with
  | nil => intro counter wc ctx; simp [buildLoop, emitLoop, concatBlocks]
  | cons p ps ih =>
    intro counter wc ctx
    simp only [buildLoop, emitLoop]
    by_cases h : wc + jsSplitLen (paperInfo counter p) ≤ budget
    · rw [if_pos h, if_pos h, ih]
      simp [concatBlocks, String.append_assoc]
    · rw [if_neg h, if_neg h]
      simp [concatBlocks]

/-- The emitted papers form a sublist of the candidate list handed to the
loop. -/
theorem emitLoop_sublist (budget : Nat) :
    ∀ (l : List Paper) (counter wc : Nat),
    ((emitLoop budget l counter wc).map Prod.snd).Sublist l := by
  intro l
  induction l with
  | nil => intro counter wc; simp [emitLoop]
  | cons p ps ih =>
    intro counter wc
    simp only [emitLoop]
    by_cases h : wc + jsSplitLen (paperInfo counter p) ≤ budget
    · rw [if_pos h]
      exact List.Sublist.cons₂ p (ih (counter + 1) (wc + jsSplitLen (paperInfo counter p)))
    · rw [if_neg h]
      exact List.nil_sublist _

theorem blocksFrom_length (l : List Paper) : ∀ c, (blocksFrom c l).length = l.length := by
  induction l with
  | nil => intro c; rfl
  | cons p ps ih => intro c; simp [blocksFrom, ih]

theorem emitLoop_blocks_take (budget : Nat) :
    ∀ (l : List Paper) (c w : Nat),
    ((emitLoop budget l c w).map fun x => paperInfo x.1 x.2) =
      (blocksFrom c l).take (emitLoop budget l c w).length := by
  intro l
  induction l with
  | nil => intro c w; simp [emitLoop, blocksFrom]
  | cons p ps ih =>
    intro c w
    simp only [emitLoop, blocksFrom]
    by_cases h : w + jsSplitLen (paperInfo c p) ≤ budget
    · rw [if_pos h]
      simp [List.take, ih]
    · rw [if_neg h]
      simp

theorem emitLoop_within_budget (budget : Nat) :
    ∀ (l : List Paper) (c w : Nat), w ≤ budget →
    w + sumTokens ((emitLoop budget l c w).map fun x => paperInfo x.1 x.2) ≤ budget := by
  intro l
  induction l with
  | nil => intro c w hw; simpa [emitLoop, sumTokens] using hw
  | cons p ps ih =>
    intro c w hw
    simp only [emitLoop]
    by_cases h : w + jsSplitLen (paperInfo c p) ≤ budget
    · rw [if_pos h]
      have := ih (c + 1) (w + jsSplitLen (paperInfo c p)) h
      simp only [sumTokens, List.map_cons, List.sum_cons] at this ⊢
      omega
    · rw [if_neg h]
      simpa [sumTokens] using hw

theorem emitLoop_maximal (budget : Nat) :
    ∀ (l : List Paper) (c w : Nat),
    (emitLoop budget l c w).length < l.length →
    budget < w + sumTokens ((blocksFrom c l).take ((emitLoop budget l c w).length + 1)) := by
  intro l
  induction l with
  | nil => intro c w h; simp [emitLoop] at h
  | cons p ps ih =>
    intro c w h
    simp only [emitLoop, blocksFrom] at h ⊢
    by_cases hb : w + jsSplitLen (paperInfo c p) ≤ budget
    · rw [if_pos hb] at h ⊢
      simp only [List.length_cons, Nat.add_lt_add_iff_right] at h
      have := ih (c + 1) (w + jsSplitLen (paperInfo c p)) h
      simp only [List.length_cons, List.take_succ_cons, sumTokens, List.map_cons,
        List.sum_cons] at this ⊢
      omega
    · rw [if_neg hb] at h ⊢
      simp only [List.length_nil, List.take_succ_cons, List.take_zero, sumTokens,
        List.map_cons, List.map_nil, List.sum_cons, List.sum_nil]
      omega

theorem buildLoop_stops (budget : Nat) (l : List Paper) (c w : Nat)
    (h : match l with
         | [] => True
         | p :: _ => ¬ w + jsSplitLen (paperInfo c p) ≤ budget) :
    buildLoop budget l c w "" = "" := by
  cases l with
  | nil => rfl
  | cons p ps => simp only [buildLoop]; rw [if_neg h]

/-- C1: every candidate list is emitted into the context string in
non-increasing citation-count order (missing counts as 0), ties broken
by non-increasing year (missing as 0): the context string is the trimmed
concatenation of the emitted numbered blocks, and the emitted papers are
pairwise ordered by the citation/year key. -/
theorem c1_context_sorted (sel : List String) (cache : String → Option Paper)
    (page : List Paper) (budget : Nat) :
    getContextFromSelectedPapers sel cache page budget =
      jsTrim (concatBlocks
        ((emitLoop budget (sortPapers (candidatePapers sel cache page)) 1 0).map
          fun x => paperInfo x.1 x.2)) ∧
    List.Pairwise
      (fun a b => citeKey b ≤ citeKey a ∧ (citeKey a = citeKey b → yearKey b ≤ yearKey a))
      ((emitLoop budget (sortPapers (candidatePapers sel cache page)) 1 0).map Prod.snd) := by
  constructor
  · unfold getContextFromSelectedPapers
    rw [buildLoop_eq_concat]
    congr 1
  · have hsorted : List.Pairwise paperBefore (sortPapers (candidatePapers sel cache page)) :=
      List.sorted_insertionSort paperBefore _
    have hsub := emitLoop_sublist budget (sortPapers (candidatePapers sel cache page)) 1 0
    exact (List.Pairwise.sublist hsub hsorted).imp
      (by intro a b h; unfold paperBefore at h; omega)

/-- C2: the blocks emitted by the context builder are an initial
segment of the numbered block list whose cumulative token count stays
within the budget; the first excluded block (if any) would push the
total past the budget, so nothing after the stopping point is emitted;
with budget 0, or when the very first block alone exceeds the budget,
the context string is empty. -/
theorem c2_word_budget (sel : List String) (cache : String → Option Paper)
    (page : List Paper) (budget : Nat) :
    ((emitLoop budget (sortPapers (candidatePapers sel cache page)) 1 0).map
        fun x => paperInfo x.1 x.2) =
      (blocksFrom 1 (sortPapers (candidatePapers sel cache page))).take
        (emitLoop budget (sortPapers (candidatePapers sel cache page)) 1 0).length ∧
    sumTokens ((emitLoop budget (sortPapers (candidatePapers sel cache page)) 1 0).map
        fun x => paperInfo x.1 x.2) ≤ budget ∧
    ((emitLoop budget (sortPapers (candidatePapers sel cache page)) 1 0).length <
        (sortPapers (candidatePapers sel cache page)).length →
      budget < sumTokens ((blocksFrom 1 (sortPapers (candidatePapers sel cache page))).take
        ((emitLoop budget (sortPapers (candidatePapers sel cache page)) 1 0).length + 1))) ∧
    (budget = 0 → getContextFromSelectedPapers sel cache page budget = "") ∧
    (∀ p ps, sortPapers (candidatePapers sel cache page) = p :: ps →
      budget < jsSplitLen (paperInfo 1 p) →
      getContextFromSelectedPapers sel cache page budget = "") := by
  refine ⟨emitLoop_blocks_take budget _ 1 0, ?_, ?_, ?_, ?_⟩
  · have := emitLoop_within_budget budget (sortPapers (candidatePapers sel cache page)) 1 0
      (Nat.zero_le budget)
    omega
  · intro h
    have := emitLoop_maximal budget (sortPapers (candidatePapers sel cache page)) 1 0 h
    omega
  · intro hb
    subst hb
    unfold getContextFromSelectedPapers
    have hz : buildLoop 0 (sortPapers (candidatePapers sel cache page)) 1 0 "" = "" := by
      apply buildLoop_stops
      cases sortPapers (candidatePapers sel cache page) with
      | nil => trivial
      | cons p ps =>
        show ¬ 0 + jsSplitLen (paperInfo 1 p) ≤ 0
        have := jsSplitLen_pos (paperInfo 1 p)
        omega
    rw [hz]
    rfl
  · intro p ps hl hgt
    unfold getContextFromSelectedPapers
    rw [hl]
    have hz : buildLoop budget (p :: ps) 1 0 "" = "" := by
      apply buildLoop_stops
      show ¬ 0 + jsSplitLen (paperInfo 1 p) ≤ budget
      omega
    rw [hz]
    rfl

/-- Witness for C2 at a concrete input: with word budget 0 the context
string is empty even though a selected paper resolves in the cache. -/
theorem c2_word_budget_witness :
    getContextFromSelectedPapers ["w1"]
      (fun id => if id = "w1" then
        some ⟨"w1", "T", [], some 2020, none, none, none, some 3⟩ else none)
      [] 0 = "" :=
  (c2_word_budget ["w1"]
    (fun id => if id = "w1" then
      some ⟨"w1", "T", [], some 2020, none, none, none, some 3⟩ else none)
    [] 0).2.2.2.1 rfl

theorem mem_dedupFirstAux (a : String) :
    ∀ (l seen : List String), a ∈ dedupFirstAux seen l ↔ a ∈ l ∧ a ∉ seen := by
  intro l
  induction l with
  | nil => intro seen; simp [dedupFirstAux]
  | cons x xs ih =>
    intro seen
    simp only [dedupFirstAux]
    by_cases hx : x ∈ seen
    · rw [if_pos hx, ih]
      constructor
      · rintro ⟨h1, h2⟩
        exact ⟨List.mem_cons_of_mem _ h1, h2⟩
      · rintro ⟨h1, h2⟩
        rcases List.mem_cons.mp h1 with rfl | h1
        · exact absurd hx h2
        · exact ⟨h1, h2⟩
    · rw [if_neg hx]
      simp only [List.mem_cons, ih]
      constructor
      · rintro (rfl | ⟨h1, h2⟩)
        · exact ⟨Or.inl rfl, hx⟩
        · exact ⟨Or.inr h1, fun hs => h2 (Or.inr hs)⟩
      · rintro ⟨hx1, h2⟩
        rcases hx1 with rfl | h1
        · exact Or.inl rfl
        · by_cases hax : a = x
          · exact Or.inl hax
          · exact Or.inr ⟨h1, by simp [List.mem_cons, hax, h2]⟩

theorem mem_dedupFirst (a : String) (l : List String) :
    a ∈ dedupFirst l ↔ a ∈ l := by
  unfold dedupFirst
  rw [mem_dedupFirstAux]
  simp

/-- C8: with a non-empty selection the candidate list is exactly the
selected ids resolved against the cache (misses silently dropped, with
no fallback to the page even when every id misses); with an empty
selection the current page's papers are resolved against the cache
instead. -/
theorem c8_candidate_resolution (sel : List String) (cache : String → Option Paper)
    (page : List Paper) :
    (sel ≠ [] →
      candidatePapers sel cache page = (dedupFirst sel).filterMap cache ∧
      (∀ p, p ∈ candidatePapers sel cache page ↔ ∃ id, id ∈ sel ∧ cache id = some p) ∧
      ((∀ id, id ∈ sel → cache id = none) → candidatePapers sel cache page = [])) ∧
    (sel = [] →
      candidatePapers sel cache page = page.filterMap (fun p => cache p.paperId) ∧
      (∀ p, p ∈ candidatePapers sel cache page ↔
        ∃ q, q ∈ page ∧ cache q.paperId = some p)) := by
  constructor
  · intro hne
    have hempty : sel.isEmpty = false := by
      cases sel with
      | nil => exact absurd rfl hne
      | cons x xs => rfl
    have heq : candidatePapers sel cache page = (dedupFirst sel).filterMap cache := by
      unfold candidatePapers
      rw [hempty]
      rfl
    refine ⟨heq, ?_, ?_⟩
    · intro p
      rw [heq, List.mem_filterMap]
      constructor
      · rintro ⟨id, hid, hc⟩
        exact ⟨id, (mem_dedupFirst id sel).mp hid, hc⟩
      · rintro ⟨id, hid, hc⟩
        exact ⟨id, (mem_dedupFirst id sel).mpr hid, hc⟩
    · intro hmiss
      rw [heq]
      rw [List.filterMap_eq_nil_iff]
      intro id hid
      exact hmiss id ((mem_dedupFirst id sel).mp hid)
  · intro hnil
    subst hnil
    have heq : candidatePapers [] cache page = page.filterMap (fun p => cache p.paperId) := by
      unfold candidatePapers
      rfl
    refine ⟨heq, ?_⟩
    intro p
    rw [heq, List.mem_filterMap]

/-- Witness for C8 at a concrete input: a selection whose single id
misses the cache yields no candidates at all, although the current page
holds a cache-resolvable paper (no fallback occurs). -/
theorem c8_candidate_resolution_witness :
    candidatePapers ["zz"]
      (fun id => if id = "w2" then
        some ⟨"w2", "T2", [], none, none, none, none, none⟩ else none)
      [⟨"w2", "T2", [], none, none, none, none, none⟩] = [] :=
  ((c8_candidate_resolution ["zz"]
    (fun id => if id = "w2" then
      some ⟨"w2", "T2", [], none, none, none, none, none⟩ else none)
    [⟨"w2", "T2", [], none, none, none, none, none⟩]).1 (by decide)).2.2
    (by intro id hid; rcases List.mem_singleton.mp hid with rfl; rfl)

/-- C6: `handleGenerateSection` checks topic, then context, then API
key, then model, in that order; the first failing check alerts its own
message and aborts with the state untouched and zero remote calls, and
the four messages are pairwise distinct. -/
theorem c6_validation_order (st : AppState) (sectionType : SectionType) (budget : Nat)
    (remote : Except String String) :
    (st.researchTopic = "" →
      handleGenerateSection st sectionType budget remote =
        ⟨st, ["Please search for a topic first."], 0⟩) ∧
    (st.researchTopic ≠ "" → appContext st budget = "" →
      handleGenerateSection st sectionType budget remote =
        ⟨st, ["No papers available to provide context."], 0⟩) ∧
    (st.researchTopic ≠ "" → appContext st budget ≠ "" → generationKey st = "" →
      handleGenerateSection st sectionType budget remote =
        ⟨st, ["API key for " ++ providerName st.generationProvider ++ " is not set."], 0⟩) ∧
    (st.researchTopic ≠ "" → appContext st budget ≠ "" → generationKey st ≠ "" →
      generationModel st = "" →
      handleGenerateSection st sectionType budget remote =
        ⟨st, ["Model for " ++ providerName st.generationProvider ++ " is not selected."], 0⟩) ∧
    List.Pairwise (fun a b => a ≠ b)
      ["Please search for a topic first.", "No papers available to provide context.",
       "API key for " ++ providerName st.generationProvider ++ " is not set.",
       "Model for " ++ providerName st.generationProvider ++ " is not selected."] := by
  refine ⟨?_, ?_, ?_, ?_, ?_⟩
  · intro h1
    unfold handleGenerateSection
    rw [if_pos h1]
  · intro h1 h2
    unfold handleGenerateSection
    rw [if_neg h1, if_pos h2]
  · intro h1 h2 h3
    unfold handleGenerateSection
    rw [if_neg h1, if_neg h2, if_pos h3]
  · intro h1 h2 h3 h4
    unfold handleGenerateSection
    rw [if_neg h1, if_neg h2, if_neg h3, if_pos h4]
  · cases st.generationProvider <;> simp [providerName]

/-- Witness for C6 at a concrete input: with topic and context present
but no Gemini key, the handler aborts with exactly the key message, an
unchanged state and zero remote calls. -/
theorem c6_validation_order_witness :
    handleGenerateSection
      { researchTopic := "topic", papers := [], selectedPaperIds := ["pw"],
        cachedPapers := fun id => if id = "pw" then
          some ⟨"pw", "T", [], some 2020, none, none, none, some 3⟩ else none,
        geminiKey := "", openRouterKey := "", semanticScholarKey := "sk",
        generationProvider := .gemini, selectedGeminiModel := "gm",
        selectedOpenRouterModel := "", introContent := "old",
        relatedWorksContent := "oldRW", introGrounding := none,
        relatedWorksGrounding := none, introError := none, relatedWorksError := none,
        generationLoading := false, chatMessages := [], chatError := none,
        chatLoading := false, geminiChatHistory := [], openRouterChatHistory := [],
        currentPage := 1, totalPapers := 0, searchError := none, searchLoading := false }
      SectionType.introduction 1000 (Except.ok ("x")) =
      ⟨{ researchTopic := "topic", papers := [], selectedPaperIds := ["pw"],
         cachedPapers := fun id => if id = "pw" then
           some ⟨"pw", "T", [], some 2020, none, none, none, some 3⟩ else none,
         geminiKey := "", openRouterKey := "", semanticScholarKey := "sk",
         generationProvider := .gemini, selectedGeminiModel := "gm",
         selectedOpenRouterModel := "", introContent := "old",
         relatedWorksContent := "oldRW", introGrounding := none,
         relatedWorksGrounding := none, introError := none, relatedWorksError := none,
         generationLoading := false, chatMessages := [], chatError := none,
         chatLoading := false, geminiChatHistory := [], openRouterChatHistory := [],
         currentPage := 1, totalPapers := 0, searchError := none, searchLoading := false },
       ["API key for Gemini is not set."], 0⟩ :=
  (c6_validation_order _ SectionType.introduction 1000 (Except.ok ("x"))).2.2.1
    (by decide) (by decide) rfl

/-- C7: once validation passes, the target slot's error, content and
grounding are cleared unconditionally at the start of the attempt; a
remote failure stores the error message in the slot's error field with
the content left cleared, a success stores the text; in either case the
other section's slot is untouched and exactly one remote call is
issued. -/
theorem c7_slot_clear_and_frame (st : AppState) (sectionType : SectionType) (budget : Nat)
    (msg text : String)
    (h1 : st.researchTopic ≠ "") (h2 : appContext st budget ≠ "")
    (h3 : generationKey st ≠ "") (h4 : generationModel st ≠ "") :
    (slotContent sectionType (handleGenerateSection st sectionType budget (.error msg)).state = "" ∧
     slotError sectionType (handleGenerateSection st sectionType budget (.error msg)).state = some msg ∧
     slotGrounding sectionType (handleGenerateSection st sectionType budget (.error msg)).state = none ∧
     (handleGenerateSection st sectionType budget (.error msg)).remoteCalls = 1) ∧
    (slotContent sectionType (handleGenerateSection st sectionType budget (.ok text)).state = text ∧
     slotError sectionType (handleGenerateSection st sectionType budget (.ok text)).state = none ∧
     slotGrounding sectionType (handleGenerateSection st sectionType budget (.ok text)).state = none ∧
     (handleGenerateSection st sectionType budget (.ok text)).remoteCalls = 1) ∧
    (∀ remote : Except String String,
      slotContent (otherSection sectionType)
          (handleGenerateSection st sectionType budget remote).state =
        slotContent (otherSection sectionType) st ∧
      slotError (otherSection sectionType)
          (handleGenerateSection st sectionType budget remote).state =
        slotError (otherSection sectionType) st ∧
      slotGrounding (otherSection sectionType)
          (handleGenerateSection st sectionType budget remote).state =
        slotGrounding (otherSection sectionType) st) := by
  have hunfold : ∀ remote : Except String String,
      handleGenerateSection st sectionType budget remote =
        let st1 := { st with generationLoading := true }
        let st2 :=
          match sectionType with
          | .introduction =>
            { st1 with introError := none, introContent := "", introGrounding := none }
          | .relatedWorks =>
            { st1 with relatedWorksError := none, relatedWorksContent := "",
                       relatedWorksGrounding := none }
        match remote with
        | .ok text =>
          let st3 :=
            match sectionType with
            | .introduction => { st2 with introContent := text, introGrounding := none }
            | .relatedWorks =>
              { st2 with relatedWorksContent := text, relatedWorksGrounding := none }
          ⟨{ st3 with generationLoading := false }, [], 1⟩
        | .error msg =>
          let st3 :=
            match sectionType with
            | .introduction => { st2 with introError := some msg }
            | .relatedWorks => { st2 with relatedWorksError := some msg }
          ⟨{ st3 with generationLoading := false }, [], 1⟩ := by
    intro remote
    unfold handleGenerateSection
    rw [if_neg h1, if_neg h2, if_neg h3, if_neg h4]
  refine ⟨?_, ?_, ?_⟩
  · rw [hunfold]
    cases sectionType <;>
      exact ⟨rfl, rfl, rfl, rfl⟩
  · rw [hunfold]
    cases sectionType <;>
      exact ⟨rfl, rfl, rfl, rfl⟩
  · intro remote
    rw [hunfold]
    cases sectionType <;> cases remote <;>
      exact ⟨rfl, rfl, rfl⟩

/-- Witness for C7 at a concrete input: a failing remote call stores the
error, clears the introduction content, and leaves the related-works
slot untouched. -/
theorem c7_slot_clear_and_frame_witness :
    slotContent SectionType.introduction
      (handleGenerateSection
        { researchTopic := "topic", papers := [], selectedPaperIds := ["pw"],
          cachedPapers := fun id => if id = "pw" then
            some ⟨"pw", "T", [], some 2020, none, none, none, some 3⟩ else none,
          geminiKey := "gk", openRouterKey := "", semanticScholarKey := "sk",
          generationProvider := .gemini, selectedGeminiModel := "gm",
          selectedOpenRouterModel := "", introContent := "old",
          relatedWorksContent := "oldRW", introGrounding := none,
          relatedWorksGrounding := none, introError := none, relatedWorksError := none,
          generationLoading := false, chatMessages := [], chatError := none,
          chatLoading := false, geminiChatHistory := [], openRouterChatHistory := [],
          currentPage := 1, totalPapers := 0, searchError := none,
          searchLoading := false }
        SectionType.introduction 1000 (Except.error ("boom"))).state = "" ∧
    slotError SectionType.introduction
      (handleGenerateSection
        { researchTopic := "topic", papers := [], selectedPaperIds := ["pw"],
          cachedPapers := fun id => if id = "pw" then
            some ⟨"pw", "T", [], some 2020, none, none, none, some 3⟩ else none,
          geminiKey := "gk", openRouterKey := "", semanticScholarKey := "sk",
          generationProvider := .gemini, selectedGeminiModel := "gm",
          selectedOpenRouterModel := "", introContent := "old",
          relatedWorksContent := "oldRW", introGrounding := none,
          relatedWorksGrounding := none, introError := none, relatedWorksError := none,
          generationLoading := false, chatMessages := [], chatError := none,
          chatLoading := false, geminiChatHistory := [], openRouterChatHistory := [],
          currentPage := 1, totalPapers := 0, searchError := none,
          searchLoading := false }
        SectionType.introduction 1000 (Except.error ("boom"))).state = some ("boom") := by
  have h := c7_slot_clear_and_frame
    { researchTopic := "topic", papers := [], selectedPaperIds := ["pw"],
      cachedPapers := fun id => if id = "pw" then
        some ⟨"pw", "T", [], some 2020, none, none, none, some 3⟩ else none,
      geminiKey := "gk", openRouterKey := "", semanticScholarKey := "sk",
      generationProvider := .gemini, selectedGeminiModel := "gm",
      selectedOpenRouterModel := "", introContent := "old",
      relatedWorksContent := "oldRW", introGrounding := none,
      relatedWorksGrounding := none, introError := none, relatedWorksError := none,
      generationLoading := false, chatMessages := [], chatError := none,
      chatLoading := false, geminiChatHistory := [], openRouterChatHistory := [],
      currentPage := 1, totalPapers := 0, searchError := none, searchLoading := false }
    SectionType.introduction 1000 "boom" "x" (by decide) (by decide) (by decide) (by decide)
  exact ⟨h.1.1, h.1.2.1⟩

theorem getOrCreate_fresh_or_stored (s : GeminiModuleState) (k : String)
    (h : List Content) (m : String) (si : Option String) :
    (∃ j, s.geminiChatInstance = some j ∧ getOrCreate s k h m si = (j, s)) ∨
    getOrCreate s k h m si = createFresh s k h m si := by
  cases hst : s.geminiChatInstance with
  | none => right; simp only [getOrCreate, hst]
  | some j =>
    by_cases hc : s.chatApiKey = some k ∧ s.chatSystemInstruction = si ∧
        s.chatModelUsed = some m
    · left; exact ⟨j, rfl, by simp only [getOrCreate, hst]; rw [if_pos hc]⟩
    · right; simp only [getOrCreate, hst]; rw [if_neg hc]

theorem runGeminiOps_avoids (inst : ChatSessionHandle) :
    ∀ (ops : List GeminiOp) (s : GeminiModuleState),
    inst.id < s.nextId →
    (∀ j, s.geminiChatInstance = some j → j ≠ inst ∧ j.id < s.nextId) →
    inst ∉ runGeminiOps s ops := by
  intro ops
  induction ops with
  | nil =>
    intro s hlt hstored
    simp [runGeminiOps]
  | cons op rest ih =>
    intro s hlt hstored
    cases op with
    | lookup k h m si =>
      simp only [runGeminiOps, applyGeminiOp, List.mem_append, List.mem_cons,
        List.not_mem_nil, or_false]
      rcases getOrCreate_fresh_or_stored s k h m si with ⟨j, hj, heq⟩ | heq
      · rw [heq]
        push_neg
        exact ⟨fun hcontra => (hstored j hj).1 hcontra.symm, ih s hlt hstored⟩
      · rw [heq]
        unfold createFresh
        push_neg
        constructor
        · intro hcontra
          have : inst.id = s.nextId := by rw [hcontra]
          omega
        · apply ih
          · show inst.id < s.nextId + 1
            omega
          · intro j hj
            have hj2 : j = ⟨s.nextId, m, h, si⟩ := by
              simpa using hj.symm
            subst hj2
            constructor
            · intro hcontra
              have : inst.id = s.nextId := by rw [← hcontra]
              omega
            · show s.nextId < s.nextId + 1
              omega
    | resetOp =>
      simp only [runGeminiOps, applyGeminiOp, List.nil_append]
      exact ih (resetGeminiChat s) hlt (by intro j hj; exact absurd hj (by simp [resetGeminiChat]))
    | authFailOp =>
      simp only [runGeminiOps, applyGeminiOp, List.nil_append]
      exact ih (geminiAuthFailureInvalidate s) hlt
        (by intro j hj; exact absurd hj (by simp [geminiAuthFailureInvalidate]))

/-- C3: a lookup whose config (key, model, system instruction) equals
the stored one field-for-field returns the existing handle with the
module state untouched; any config mismatch discards the handle and
creates a fresh session seeded with the caller's history; and after the
App-level model change (which resets the module and clears the persisted
history) the next lookup yields a fresh session with empty history. -/
theorem c3_session_reuse (s : GeminiModuleState) (inst : ChatSessionHandle)
    (apiKey : String) (hist : List Content) (model : String) (si : Option String)
    (st : AppState) (newModel : String) :
    (s.geminiChatInstance = some inst → s.chatApiKey = some apiKey →
      s.chatSystemInstruction = si → s.chatModelUsed = some model →
      getOrCreate s apiKey hist model si = (inst, s)) ∧
    (wfGemini s → s.geminiChatInstance = some inst →
      ¬(s.chatApiKey = some apiKey ∧ s.chatSystemInstruction = si ∧
        s.chatModelUsed = some model) →
      (getOrCreate s apiKey hist model si).1 = ⟨s.nextId, model, hist, si⟩ ∧
      (getOrCreate s apiKey hist model si).1 ≠ inst) ∧
    ((getOrCreate (handleSelectedGeminiModelChange st s newModel).2 apiKey
        (handleSelectedGeminiModelChange st s newModel).1.geminiChatHistory
        newModel si).1.seededHistory = [] ∧
     (wfGemini s → s.geminiChatInstance = some inst →
       (getOrCreate (handleSelectedGeminiModelChange st s newModel).2 apiKey
         (handleSelectedGeminiModelChange st s newModel).1.geminiChatHistory
         newModel si).1 ≠ inst)) := by
  refine ⟨?_, ?_, ?_, ?_⟩
  · intro h1 h2 h3 h4
    simp only [getOrCreate, h1]
    rw [if_pos ⟨h2, h3, h4⟩]
  · intro hwf h1 hne
    simp only [getOrCreate, h1]
    rw [if_neg hne]
    refine ⟨rfl, ?_⟩
    intro hcontra
    have hid : inst.id = s.nextId := by
      rw [show inst = (⟨s.nextId, model, hist, si⟩ : ChatSessionHandle) from hcontra.symm]
    have := hwf inst h1
    omega
  · rfl
  · intro hwf h1
    intro hcontra
    have hid : inst.id = s.nextId := by
      rw [show inst = (⟨s.nextId, newModel, [], si⟩ : ChatSessionHandle) from hcontra.symm]
    have := hwf inst h1
    omega

/-- Witness for C3 at a concrete input: after creating a session under a
config, a second lookup with the identical config returns the same
handle and leaves the module state unchanged. -/
theorem c3_session_reuse_witness :
    getOrCreate (createFresh initialGeminiState "k" [⟨"user", ["hello"]⟩] "m" (some ("si"))).2
      "k" [⟨"user", ["hello"]⟩] "m" (some ("si")) =
      (⟨0, "m", [⟨"user", ["hello"]⟩], some ("si")⟩,
       (createFresh initialGeminiState "k" [⟨"user", ["hello"]⟩] "m" (some ("si"))).2) :=
  (c3_session_reuse
    (createFresh initialGeminiState "k" [⟨"user", ["hello"]⟩] "m" (some ("si"))).2
    ⟨0, "m", [⟨"user", ["hello"]⟩], some ("si")⟩ "k" [⟨"user", ["hello"]⟩] "m"
    (some ("si"))
    { researchTopic := "", papers := [], selectedPaperIds := [],
      cachedPapers := fun _ => none, geminiKey := "", openRouterKey := "",
      semanticScholarKey := "", generationProvider := .gemini,
      selectedGeminiModel := "", selectedOpenRouterModel := "", introContent := "",
      relatedWorksContent := "", introGrounding := none, relatedWorksGrounding := none,
      introError := none, relatedWorksError := none, generationLoading := false,
      chatMessages := [], chatError := none, chatLoading := false,
      geminiChatHistory := [], openRouterChatHistory := [], currentPage := 1,
      totalPapers := 0, searchError := none, searchLoading := false }
    "m2").1 rfl rfl rfl rfl

/-- C4: an authentication failure inside a chat turn invalidates the
session before the error is surfaced: the returned state stores no
instance, behaves exactly like the reset state on the next lookup (for
any config, in particular a corrected key), and the failed handle is
never handed out again by any subsequent sequence of module
operations. -/
theorem c4_auth_failure_invalidates (s : GeminiModuleState) (apiKey userMessage : String)
    (history : List Content) (model : String) (si : Option String) (msg : String)
    (ops : List GeminiOp) (k2 : String) (hist2 : List Content) (m2 : String)
    (si2 : Option String)
    (hauth : includesAuth msg = true) (hwf : wfGemini s) :
    (startOrContinueChatWithGemini s apiKey userMessage history model si
      (.error msg)).state.geminiChatInstance = none ∧
    (startOrContinueChatWithGemini s apiKey userMessage history model si
      (.error msg)).result =
      .error ("Gemini Chat API error: " ++ (if msg = "" then "Unknown error" else msg)) ∧
    getOrCreate (startOrContinueChatWithGemini s apiKey userMessage history model si
        (.error msg)).state k2 hist2 m2 si2 =
      getOrCreate (resetGeminiChat (startOrContinueChatWithGemini s apiKey userMessage
        history model si (.error msg)).state) k2 hist2 m2 si2 ∧
    (getOrCreate s apiKey history model si).1 ∉
      runGeminiOps (startOrContinueChatWithGemini s apiKey userMessage history model si
        (.error msg)).state ops := by
  have hstate : (startOrContinueChatWithGemini s apiKey userMessage history model si
      (.error msg)).state =
      geminiAuthFailureInvalidate (getOrCreate s apiKey history model si).2 := by
    simp [startOrContinueChatWithGemini, hauth]
  refine ⟨?_, ?_, ?_, ?_⟩
  · rw [hstate]; rfl
  · simp [startOrContinueChatWithGemini]
  · rw [hstate]
    rfl
  · rw [hstate]
    rcases getOrCreate_fresh_or_stored s apiKey history model si with ⟨j, hj, heq⟩ | heq
    · rw [heq]
      apply runGeminiOps_avoids
      · show j.id < s.nextId
        exact hwf j hj
      · intro j2 hj2
        exact absurd hj2 (by simp [geminiAuthFailureInvalidate])
    · rw [heq]
      apply runGeminiOps_avoids
      · show s.nextId < s.nextId + 1
        omega
      · intro j2 hj2
        exact absurd hj2 (by simp [geminiAuthFailureInvalidate, createFresh])

/-- Witness for C4 at a concrete input: after an auth-failing turn on a
live session, a lookup with a corrected key hands out a fresh handle,
not the failed one. -/
theorem c4_auth_failure_invalidates_witness :
    (startOrContinueChatWithGemini
      (createFresh initialGeminiState "bad" [] "m" none).2 "bad" "hi" [] "m" none
      (.error ("API key not valid"))).state.geminiChatInstance = none ∧
    ⟨0, "m", [], none⟩ ∉
      runGeminiOps (startOrContinueChatWithGemini
        (createFresh initialGeminiState "bad" [] "m" none).2 "bad" "hi" [] "m" none
        (.error ("API key not valid"))).state
        [GeminiOp.lookup "good" [] "m" none] := by
  have h := c4_auth_failure_invalidates
    (createFresh initialGeminiState "bad" [] "m" none).2 "bad" "hi" [] "m" none
    "API key not valid" [GeminiOp.lookup "good" [] "m" none] "good" [] "m" none
    (by decide)
    (by
      intro j hj
      have hj' : some (⟨0, "m", [], none⟩ : ChatSessionHandle) = some j := hj
      injection hj' with hh
      subst hh
      show (0 : Nat) < 1
      omega)
  exact ⟨h.1, by
    have h4 := h.2.2.2
    have hh : (getOrCreate (createFresh initialGeminiState "bad" [] "m" none).2
        "bad" [] "m" none).1 = ⟨0, "m", [], none⟩ := by decide
    rw [hh] at h4
    exact h4⟩

/-- Counterexample to C5 as stated: on the first OpenRouter turn with a
system instruction and empty prior history, the returned history is not
the prior history with only the user and assistant turns appended — a
system turn is prepended in front. -/
theorem c5_counterexample :
    chatWithOpenRouterHistory (some ("S")) [] "hi" "yo" ≠
      ([] : List OpenRouterMessage) ++
        [⟨ORRole.user, "hi"⟩, ⟨ORRole.assistant, "yo"⟩] := by
  decide

/-- C5 amended: on a successful turn, Gemini returns the prior history
with exactly the user turn and the model turn appended; OpenRouter does
the same whenever the system instruction is absent/empty or the prior
history already holds a system-role message, and otherwise additionally
prepends the system turn in front of the prior history. -/
theorem c5_sendturn_appends (s : GeminiModuleState) (apiKey userMessage : String)
    (hist : List Content) (model : String) (si : Option String) (reply : String)
    (siOR : Option String) (curHist : List OpenRouterMessage) (userOR replyOR : String) :
    (startOrContinueChatWithGemini s apiKey userMessage hist model si
      (.ok reply)).result = .ok reply ∧
    (startOrContinueChatWithGemini s apiKey userMessage hist model si
      (.ok reply)).updatedHistory =
      hist ++ [userContent userMessage, modelContent reply] ∧
    ((siOR = none ∨ siOR = some ("") ∨ curHist.find? isSystemRole ≠ none) →
      chatWithOpenRouter userOR curHist siOR (.ok replyOR) =
        .ok (replyOR, curHist ++ [⟨.user, userOR⟩, ⟨.assistant, replyOR⟩])) ∧
    (∀ s0, siOR = some s0 → s0 ≠ "" → curHist.find? isSystemRole = none →
      chatWithOpenRouter userOR curHist siOR (.ok replyOR) =
        .ok (replyOR,
          ⟨.system, s0⟩ :: (curHist ++ [⟨.user, userOR⟩, ⟨.assistant, replyOR⟩]))) := by
  refine ⟨rfl, rfl, ?_, ?_⟩
  · intro hcase
    rcases hcase with rfl | rfl | hfind
    · simp [chatWithOpenRouter, chatWithOpenRouterHistory]
    · simp [chatWithOpenRouter, chatWithOpenRouterHistory]
    · cases hsi : siOR with
      | none => simp [chatWithOpenRouter, chatWithOpenRouterHistory]
      | some s0 =>
        simp only [chatWithOpenRouter, chatWithOpenRouterHistory]
        rw [if_neg (by intro hboth; exact hfind hboth.2)]
        simp
  · intro s0 hsi hs0 hfind
    subst hsi
    simp only [chatWithOpenRouter, chatWithOpenRouterHistory]
    rw [if_pos ⟨hs0, hfind⟩]
    simp

/-- Witness for the amended C5 at a concrete input: a second OpenRouter
turn, whose history already starts with the system message, appends
exactly the user and assistant turns. -/
theorem c5_sendturn_appends_witness :
    chatWithOpenRouter "more" [⟨ORRole.system, "S"⟩, ⟨ORRole.user, "hi"⟩,
        ⟨ORRole.assistant, "yo"⟩] (some ("S")) (.ok ("sure")) =
      .ok ("sure", [⟨ORRole.system, "S"⟩, ⟨ORRole.user, "hi"⟩, ⟨ORRole.assistant, "yo"⟩] ++
        [⟨ORRole.user, "more"⟩, ⟨ORRole.assistant, "sure"⟩]) :=
  (c5_sendturn_appends initialGeminiState "" "" [] "" none ""
    (some ("S")) [⟨ORRole.system, "S"⟩, ⟨ORRole.user, "hi"⟩, ⟨ORRole.assistant, "yo"⟩]
    "more" "sure").2.2.1 (Or.inr (Or.inr (by decide)))

/-- Counterexample to C9 as stated: a chat send with a missing Gemini
key does modify the conversation transcript — the user message and an
error message are appended to it by the failed validation. -/
theorem c9_counterexample :
    (handleSendMessage
      { researchTopic := "", papers := [], selectedPaperIds := [],
        cachedPapers := fun _ => none, geminiKey := "", openRouterKey := "",
        semanticScholarKey := "", generationProvider := .gemini,
        selectedGeminiModel := "", selectedOpenRouterModel := "", introContent := "",
        relatedWorksContent := "", introGrounding := none, relatedWorksGrounding := none,
        introError := none, relatedWorksError := none, generationLoading := false,
        chatMessages := [], chatError := none, chatLoading := false,
        geminiChatHistory := [], openRouterChatHistory := [], currentPage := 1,
        totalPapers := 0, searchError := none, searchLoading := false }
      initialGeminiState "hi" ApiProvider.gemini "m" 0 (Except.ok ("r"))).state.chatMessages ≠
    ([] : List ChatMessage) := by
  decide

/-- C9 amended: a chat send attempted with a missing key or missing
model reports its validation message synchronously in `chatError`,
issues zero remote calls, and leaves the provider conversation
histories, the Gemini module state and the rest of the app state
unmodified; the visible transcript gains exactly the user message and
an error echo. -/
theorem c9_validation_no_call (st : AppState) (gs : GeminiModuleState)
    (messageText : String) (provider : ApiProvider) (model : String) (now : Nat)
    (remote : Except String String)
    (h : chatKey st provider = "" ∨ model = "") :
    (handleSendMessage st gs messageText provider model now remote).remoteCalls = 0 ∧
    (handleSendMessage st gs messageText provider model now remote).gemini = gs ∧
    (handleSendMessage st gs messageText provider model now
      remote).state.geminiChatHistory = st.geminiChatHistory ∧
    (handleSendMessage st gs messageText provider model now
      remote).state.openRouterChatHistory = st.openRouterChatHistory ∧
    (handleSendMessage st gs messageText provider model now remote).state.chatError =
      some (if chatKey st provider = "" then
        "API key for " ++ providerName provider ++ " is not set."
      else "Model for " ++ providerName provider ++ " is not selected.") ∧
    (handleSendMessage st gs messageText provider model now remote).state.chatMessages =
      st.chatMessages ++
        [⟨toString now, .user, messageText, now⟩,
         ⟨toString (now + 1), .ai,
          "Error: " ++ (if chatKey st provider = "" then
            "API key for " ++ providerName provider ++ " is not set."
          else "Model for " ++ providerName provider ++ " is not selected."), now⟩] ∧
    (handleSendMessage st gs messageText provider model now
      remote).state.selectedPaperIds = st.selectedPaperIds ∧
    (handleSendMessage st gs messageText provider model now
      remote).state.introContent = st.introContent ∧
    (handleSendMessage st gs messageText provider model now
      remote).state.relatedWorksContent = st.relatedWorksContent := by
  simp only [handleSendMessage]
  rw [if_pos h]
  refine ⟨rfl, rfl, rfl, rfl, rfl, ?_, rfl, rfl, rfl⟩
  simp

/-- Witness for the amended C9 at a concrete input: with an empty Gemini
key, the send reports the key message, makes no remote call, and leaves
the Gemini history untouched. -/
theorem c9_validation_no_call_witness :
    (handleSendMessage
      { researchTopic := "", papers := [], selectedPaperIds := [],
        cachedPapers := fun _ => none, geminiKey := "", openRouterKey := "",
        semanticScholarKey := "", generationProvider := .gemini,
        selectedGeminiModel := "", selectedOpenRouterModel := "", introContent := "",
        relatedWorksContent := "", introGrounding := none, relatedWorksGrounding := none,
        introError := none, relatedWorksError := none, generationLoading := false,
        chatMessages := [], chatError := none, chatLoading := false,
        geminiChatHistory := [⟨"user", ["old"]⟩], openRouterChatHistory := [],
        currentPage := 1, totalPapers := 0, searchError := none,
        searchLoading := false }
      initialGeminiState "hi" ApiProvider.gemini "m" 0
      (Except.ok ("r"))).remoteCalls = 0 ∧
    (handleSendMessage
      { researchTopic := "", papers := [], selectedPaperIds := [],
        cachedPapers := fun _ => none, geminiKey := "", openRouterKey := "",
        semanticScholarKey := "", generationProvider := .gemini,
        selectedGeminiModel := "", selectedOpenRouterModel := "", introContent := "",
        relatedWorksContent := "", introGrounding := none, relatedWorksGrounding := none,
        introError := none, relatedWorksError := none, generationLoading := false,
        chatMessages := [], chatError := none, chatLoading := false,
        geminiChatHistory := [⟨"user", ["old"]⟩], openRouterChatHistory := [],
        currentPage := 1, totalPapers := 0, searchError := none,
        searchLoading := false }
      initialGeminiState "hi" ApiProvider.gemini "m" 0
      (Except.ok ("r"))).state.geminiChatHistory = [⟨"user", ["old"]⟩] := by
  have h := c9_validation_no_call
    { researchTopic := "", papers := [], selectedPaperIds := [],
      cachedPapers := fun _ => none, geminiKey := "", openRouterKey := "",
      semanticScholarKey := "", generationProvider := .gemini,
      selectedGeminiModel := "", selectedOpenRouterModel := "", introContent := "",
      relatedWorksContent := "", introGrounding := none, relatedWorksGrounding := none,
      introError := none, relatedWorksError := none, generationLoading := false,
      chatMessages := [], chatError := none, chatLoading := false,
      geminiChatHistory := [⟨"user", ["old"]⟩], openRouterChatHistory := [],
      currentPage := 1, totalPapers := 0, searchError := none, searchLoading := false }
    initialGeminiState "hi" ApiProvider.gemini "m" 0 (Except.ok ("r"))
    (Or.inl rfl)
  exact ⟨h.1, h.2.2.1⟩

theorem recordFetch_mem (ps : List Paper) :
    ∀ (cache : String → Option Paper) (id : String) (p : Paper),
    recordFetch cache ps id = some p → (p ∈ ps ∧ p.paperId = id) ∨ cache id = some p := by
  induction ps with
  | nil => intro cache id p h; right; exact h
  | cons q qs ih =>
    intro cache id p h
    simp only [recordFetch, List.foldl_cons] at h
    rcases ih _ id p h with ⟨h1, h2⟩ | h2
    · left; exact ⟨List.mem_cons_of_mem _ h1, h2⟩
    · by_cases hid : id = q.paperId
      · rw [if_pos hid] at h2
        left
        refine ⟨?_, ?_⟩
        · rw [← Option.some.inj h2]
          exact List.mem_cons_self _ _
        · rw [← Option.some.inj h2, hid]
      · rw [if_neg hid] at h2
        right; exact h2

/-- C10: starting a new search resets the selection, clears both
generated section slots (content and grounding) and empties the cache
before the page-1 fetch, so every paper in the post-search cache comes
from the new search's response — context can never be drawn from a
previous topic's cache. -/
theorem c10_search_resets (st : AppState) (topic : String)
    (outcome : Except String SearchResponse) :
    (handleSearch st topic outcome).selectedPaperIds = [] ∧
    (handleSearch st topic outcome).introContent = "" ∧
    (handleSearch st topic outcome).relatedWorksContent = "" ∧
    (handleSearch st topic outcome).introGrounding = none ∧
    (handleSearch st topic outcome).relatedWorksGrounding = none ∧
    (∀ id p, (handleSearch st topic outcome).cachedPapers id = some p →
      ∃ resp, outcome = .ok resp ∧ p ∈ resp.papers ∧ p.paperId = id) := by
  simp only [handleSearch, fetchPapersForPage]
  by_cases hkey : st.semanticScholarKey = ""
  · rw [if_pos hkey]
    refine ⟨rfl, rfl, rfl, rfl, rfl, ?_⟩
    intro id p hc
    exact absurd hc (by simp)
  · rw [if_neg hkey]
    cases outcome with
    | ok resp =>
      refine ⟨rfl, rfl, rfl, rfl, rfl, ?_⟩
      intro id p hc
      rcases recordFetch_mem resp.papers _ id p hc with ⟨h1, h2⟩ | h2
      · exact ⟨resp, rfl, h1, h2⟩
      · exact absurd h2 (by simp)
    | error msg =>
      refine ⟨rfl, rfl, rfl, rfl, rfl, ?_⟩
      intro id p hc
      exact absurd hc (by simp)

/-- Witness for C10 at a concrete input: after a new search whose
response holds one paper, the selection is empty and the response paper
is recorded as cached under its id. -/
theorem c10_search_resets_witness :
    (handleSearch staleState "fresh" (.ok freshResp)).selectedPaperIds = [] ∧
    ∃ resp, (Except.ok freshResp : Except String SearchResponse) = .ok resp ∧
      freshPaper ∈ resp.papers ∧ freshPaper.paperId = "n1" := by
  have h := c10_search_resets staleState "fresh" (.ok freshResp)
  exact ⟨h.1, h.2.2.2.2.2 "n1" freshPaper (by decide)⟩

end Private4me

